import Mathlib

/-!
Shallow embedding of src/core/jni/android_view_ThreadedRenderer.cpp and proofs
about the JNI glue layer of the threaded renderer: the frame-info size guard,
the snapshot (createHardwareBitmap) path, the callback-wrapper lifetimes, the
frame-metrics observer registry and the fatal-error branches.

JNI-level machine integers (jint, jlong) are modelled as Int, sizes as Nat.
A LOG_ALWAYS_FATAL branch is modelled as the JniResult.fatal constructor:
such a call never returns a value to its caller.
-/

namespace ThreadedRenderer

/-- Result of a JNI entry point: either a fatal abort raised by
LOG_ALWAYS_FATAL / LOG_ALWAYS_FATAL_IF, which never returns control to the
caller, or a normal return value. -/
inductive JniResult (α : Type) where
  | fatal (msg : String) : JniResult α
  | ok (a : α) : JniResult α
deriving Repr

/-- Whether a JNI call hit a fatal-abort branch. -/
def JniResult.isFatal {α : Type} : JniResult α → Bool
  | .fatal _ => true
  | .ok _ => false

/-- Modelled from the spec: the frame-info record size UI_THREAD_FRAME_INFO_SIZE
is a compile-time constant ("the record size is a compile-time constant"),
defined in FrameInfo.h which is outside the given sources; only the fact that
it is a fixed constant matters for the properties proved here, not its value. -/
def UI_THREAD_FRAME_INFO_SIZE : Int := 9

/-- Shallow model of the RenderProxy as this JNI layer uses it: the
worker-owned frame-info storage written through proxy->frameInfo(), and an
abstract behaviour for the blocking RenderProxy::syncAndDrawFrame, whose
bit-flag result may depend on the frame info committed to the proxy. -/
structure RenderProxy where
  frameInfo : List Int
  drawFrameResult : List Int → Int

/-- android_view_ThreadedRenderer_syncAndDrawFrame (lines 222-230): aborts
fatally when the caller-supplied frameInfoSize differs from
UI_THREAD_FRAME_INFO_SIZE; otherwise GetLongArrayRegion copies frameInfoSize
elements of the caller array, starting at index 0, into the proxy frame-info
storage, then RenderProxy::syncAndDrawFrame runs and its result is returned
unchanged. -/
def syncAndDrawFrame (proxy : RenderProxy) (frameInfo : List Int)
    (frameInfoSize : Int) : JniResult (RenderProxy × Int) :=
  if frameInfoSize ≠ UI_THREAD_FRAME_INFO_SIZE then
    JniResult.fatal "Mismatched size expectations"
  else
    let committed := frameInfo.take frameInfoSize.toNat
    let proxy2 : RenderProxy := { proxy with frameInfo := committed }
    JniResult.ok (proxy2, proxy2.drawFrameResult committed)

/-- C1: a call to nSyncAndDrawFrame with frameInfoSize different from
UI_THREAD_FRAME_INFO_SIZE aborts fatally and never returns a result value;
when frameInfoSize equals the constant, the fatal branch is unreachable. -/
theorem syncAndDrawFrame_size_guard (proxy : RenderProxy) (fi : List Int)
    (sz : Int) :
    (sz ≠ UI_THREAD_FRAME_INFO_SIZE →
      (syncAndDrawFrame proxy fi sz).isFatal = true) ∧
    (sz = UI_THREAD_FRAME_INFO_SIZE →
      (syncAndDrawFrame proxy fi sz).isFatal = false) := by
  constructor
  · intro hne
    simp [syncAndDrawFrame, hne, JniResult.isFatal]
  · intro heq
    simp [syncAndDrawFrame, heq, JniResult.isFatal]

/-- Witness for C1 at concrete sizes 3 (fatal) and 9 (no abort). -/
theorem syncAndDrawFrame_size_guard_witness :
    (syncAndDrawFrame { frameInfo := [], drawFrameResult := fun _ => 0 }
      [] 3).isFatal = true ∧
    (syncAndDrawFrame { frameInfo := [], drawFrameResult := fun _ => 0 }
      [] UI_THREAD_FRAME_INFO_SIZE).isFatal = false :=
  ⟨(syncAndDrawFrame_size_guard _ [] 3).1 (by decide),
   (syncAndDrawFrame_size_guard _ [] UI_THREAD_FRAME_INFO_SIZE).2 rfl⟩

/-- C2: under the size precondition, all UI_THREAD_FRAME_INFO_SIZE elements of
the caller array are copied, in order from index 0, into the proxy's
worker-owned frame-info storage, and the result of invoking
RenderProxy::syncAndDrawFrame on that committed state is returned unchanged. -/
theorem syncAndDrawFrame_commits_before_draw (proxy : RenderProxy)
    (fi : List Int)
    (hlen : UI_THREAD_FRAME_INFO_SIZE.toNat ≤ fi.length) :
    ∃ p2 : RenderProxy,
      syncAndDrawFrame proxy fi UI_THREAD_FRAME_INFO_SIZE =
        JniResult.ok (p2, p2.drawFrameResult p2.frameInfo) ∧
      p2.frameInfo = fi.take UI_THREAD_FRAME_INFO_SIZE.toNat ∧
      p2.frameInfo.length = UI_THREAD_FRAME_INFO_SIZE.toNat ∧
      (∀ i, i < UI_THREAD_FRAME_INFO_SIZE.toNat →
        p2.frameInfo.getD i 0 = fi.getD i 0) ∧
      p2.drawFrameResult = proxy.drawFrameResult := by
  refine ⟨{ proxy with
            frameInfo := fi.take UI_THREAD_FRAME_INFO_SIZE.toNat },
          ?_, rfl, ?_, ?_, rfl⟩
  · simp [syncAndDrawFrame]
  · simp [List.length_take, Nat.min_eq_left hlen]
  · intro i hi
    simp [List.getD, List.getElem?_take_of_lt hi]

/-- Witness for C2 with a concrete 9-element frame-info array. -/
theorem syncAndDrawFrame_commits_before_draw_witness :
    UI_THREAD_FRAME_INFO_SIZE.toNat ≤ (List.replicate 9 (0 : Int)).length ∧
    ∃ p2 : RenderProxy,
      syncAndDrawFrame { frameInfo := [], drawFrameResult := fun _ => 0 }
          (List.replicate 9 (0 : Int)) UI_THREAD_FRAME_INFO_SIZE =
        JniResult.ok (p2, p2.drawFrameResult p2.frameInfo) ∧
      p2.frameInfo =
        (List.replicate 9 (0 : Int)).take UI_THREAD_FRAME_INFO_SIZE.toNat ∧
      p2.frameInfo.length = UI_THREAD_FRAME_INFO_SIZE.toNat ∧
      (∀ i, i < UI_THREAD_FRAME_INFO_SIZE.toNat →
        p2.frameInfo.getD i 0 = (List.replicate 9 (0 : Int)).getD i 0) ∧
      p2.drawFrameResult =
        RenderProxy.drawFrameResult
          { frameInfo := [], drawFrameResult := fun _ => 0 } :=
  ⟨by decide,
   syncAndDrawFrame_commits_before_draw _ _ (by decide)⟩

/-- Skia colour space handle as the snapshot path sees it: either sRGB (the
substitute produced by SkColorSpace::MakeSRGB) or some other colour space
returned by DataSpaceToColorSpace. -/
inductive ColorSpace where
  | srgb
  | named (id : Int)
deriving DecidableEq, Repr

/-- The GraphicBuffer yanked out of the consumer, with the accessors the
snapshot path reads: getWidth, getHeight, getPixelFormat. -/
structure GraphicBuffer where
  width : Nat
  height : Nat
  pixelFormat : Int
deriving DecidableEq, Repr

/-- BufferItem as read by the snapshot path: mGraphicBuffer and mDataSpace. -/
structure BufferItem where
  mGraphicBuffer : Option GraphicBuffer
  mDataSpace : Int
deriving DecidableEq, Repr

/-- External collaborators of the snapshot path (outside the sources): the
buffer-queue consumer's acquireBuffer outcome, and the DataSpaceToColorSpace /
PixelFormatToColorType conversion tables. -/
structure SnapshotEnv where
  acquireBufferResult : Option BufferItem
  dataSpaceToColorSpace : Int → Option ColorSpace
  pixelFormatToColorType : Int → Int

/-- The Bitmap built by Bitmap::createFrom(buffer, ct, cs): its dimensions are
the backing buffer's dimensions, and it carries the colour space it was
constructed with. -/
structure HwBitmap where
  width : Nat
  height : Nat
  colorType : Int
  colorSpace : Option ColorSpace
deriving DecidableEq, Repr

/-- Observable side effects of the snapshot path, in program order: ALOGW log
lines and the creation of the buffer queue, surface and proxy. -/
inductive SnapshotEffect where
  | warnedInvalidDimensions
  | createdBufferQueue
  | createdSurface
  | createdProxy
  | renderedFrame
  | warnedAcquireFailure
  | warnedNullBuffer
  | warnedSizeMismatch
deriving DecidableEq, Repr

/-- android_view_ThreadedRenderer_createHardwareBitmapFromRenderNode
(lines 464-533): rejects non-positive dimensions before creating anything;
otherwise wires a buffer queue, surface and temporary proxy, renders one
frame, acquires the buffer, and returns null on acquire failure or a null
buffer; on a buffer size mismatch it only logs a warning and continues,
building the bitmap from the acquired buffer; a null colour space from
DataSpaceToColorSpace is replaced by sRGB. Returns the resulting bitmap (or
null) together with the list of side effects performed. -/
def createHardwareBitmapFromRenderNode (env : SnapshotEnv)
    (jwidth jheight : Int) : Option HwBitmap × List SnapshotEffect :=
  if jwidth ≤ 0 ∨ jheight ≤ 0 then
    (none, [SnapshotEffect.warnedInvalidDimensions])
  else
    let width := jwidth.toNat
    let height := jheight.toNat
    let setup := [SnapshotEffect.createdBufferQueue,
                  SnapshotEffect.createdSurface,
                  SnapshotEffect.createdProxy,
                  SnapshotEffect.renderedFrame]
    match env.acquireBufferResult with
    | none => (none, setup ++ [SnapshotEffect.warnedAcquireFailure])
    | some bufferItem =>
      match bufferItem.mGraphicBuffer with
      | none => (none, setup ++ [SnapshotEffect.warnedNullBuffer])
      | some buffer =>
        let sizeLog :=
          if buffer.width ≠ width ∨ buffer.height ≠ height then
            [SnapshotEffect.warnedSizeMismatch]
          else []
        let ct := env.pixelFormatToColorType buffer.pixelFormat
        let cs :=
          match env.dataSpaceToColorSpace bufferItem.mDataSpace with
          | none => ColorSpace.srgb
          | some c => c
        (some { width := buffer.width, height := buffer.height,
                colorType := ct, colorSpace := some cs },
         setup ++ sizeLog)

/-- C3 counterexample: with a request of 4x4 (both positive) and an acquired
buffer of 5x5, the snapshot path returns a non-null bitmap whose dimensions
are 5x5, differing from the request, instead of null: the claimed disjunction
"matching dimensions or null" fails. -/
theorem createHardwareBitmap_size_mismatch_cx :
    (createHardwareBitmapFromRenderNode
      { acquireBufferResult :=
          some { mGraphicBuffer :=
                   some { width := 5, height := 5, pixelFormat := 1 },
                 mDataSpace := 0 },
        dataSpaceToColorSpace := fun _ => none,
        pixelFormatToColorType := fun _ => 0 } 4 4).1 =
      some { width := 5, height := 5, colorType := 0,
             colorSpace := some ColorSpace.srgb } ∧
    (0 : Int) < 4 ∧ (5 : Nat) ≠ 4 :=
  ⟨rfl, by decide, by decide⟩

/-- C3 (amended): with positive requested dimensions the snapshot path returns
null, or a bitmap whose dimensions are those of the acquired buffer; these
match the request whenever the buffer honours the requested size, and on a
mismatch a warning is logged (the mismatched bitmap is returned anyway). -/
theorem createHardwareBitmap_returns_buffer_dims (env : SnapshotEnv)
    (w h : Int) (hw : 0 < w) (hh : 0 < h) :
    (createHardwareBitmapFromRenderNode env w h).1 = none ∨
    ∃ item buffer b,
      env.acquireBufferResult = some item ∧
      item.mGraphicBuffer = some buffer ∧
      (createHardwareBitmapFromRenderNode env w h).1 = some b ∧
      b.width = buffer.width ∧ b.height = buffer.height ∧
      (buffer.width = w.toNat ∧ buffer.height = h.toNat →
        b.width = w.toNat ∧ b.height = h.toNat) ∧
      (buffer.width ≠ w.toNat ∨ buffer.height ≠ h.toNat →
        SnapshotEffect.warnedSizeMismatch ∈
          (createHardwareBitmapFromRenderNode env w h).2) := by
  have hneg : ¬(w ≤ 0 ∨ h ≤ 0) := by omega
  cases hA : env.acquireBufferResult with
  | none =>
    left
    simp [createHardwareBitmapFromRenderNode, hneg, hA]
  | some item =>
    cases hB : item.mGraphicBuffer with
    | none =>
      left
      simp [createHardwareBitmapFromRenderNode, hneg, hA, hB]
    | some buffer =>
      right
      cases hcs : env.dataSpaceToColorSpace item.mDataSpace with
      | none =>
        refine ⟨item, buffer,
          { width := buffer.width, height := buffer.height,
            colorType := env.pixelFormatToColorType buffer.pixelFormat,
            colorSpace := some ColorSpace.srgb },
          rfl, hB, ?_, rfl, rfl, fun hm => hm, ?_⟩
        · simp [createHardwareBitmapFromRenderNode, hneg, hA, hB, hcs]
        · intro hmis
          simp [createHardwareBitmapFromRenderNode, hneg, hA, hB, hcs, hmis]
      | some c =>
        refine ⟨item, buffer,
          { width := buffer.width, height := buffer.height,
            colorType := env.pixelFormatToColorType buffer.pixelFormat,
            colorSpace := some c },
          rfl, hB, ?_, rfl, rfl, fun hm => hm, ?_⟩
        · simp [createHardwareBitmapFromRenderNode, hneg, hA, hB, hcs]
        · intro hmis
          simp [createHardwareBitmapFromRenderNode, hneg, hA, hB, hcs, hmis]

/-- Witness for C3 (amended) at a concrete environment whose acquired buffer
matches the 2x2 request. -/
theorem createHardwareBitmap_returns_buffer_dims_witness :
    (0 : Int) < 2 ∧
    ((createHardwareBitmapFromRenderNode
        { acquireBufferResult :=
            some { mGraphicBuffer :=
                     some { width := 2, height := 2, pixelFormat := 1 },
                   mDataSpace := 0 },
          dataSpaceToColorSpace := fun _ => some (ColorSpace.named 3),
          pixelFormatToColorType := fun _ => 0 } 2 2).1 = none ∨
      ∃ item buffer b,
        SnapshotEnv.acquireBufferResult
          { acquireBufferResult :=
              some { mGraphicBuffer :=
                       some { width := 2, height := 2, pixelFormat := 1 },
                     mDataSpace := 0 },
            dataSpaceToColorSpace := fun _ => some (ColorSpace.named 3),
            pixelFormatToColorType := fun _ => 0 } = some item ∧
        item.mGraphicBuffer = some buffer ∧
        (createHardwareBitmapFromRenderNode
          { acquireBufferResult :=
              some { mGraphicBuffer :=
                       some { width := 2, height := 2, pixelFormat := 1 },
                     mDataSpace := 0 },
            dataSpaceToColorSpace := fun _ => some (ColorSpace.named 3),
            pixelFormatToColorType := fun _ => 0 } 2 2).1 = some b ∧
        b.width = buffer.width ∧ b.height = buffer.height ∧
        (buffer.width = (2 : Int).toNat ∧ buffer.height = (2 : Int).toNat →
          b.width = (2 : Int).toNat ∧ b.height = (2 : Int).toNat) ∧
        (buffer.width ≠ (2 : Int).toNat ∨ buffer.height ≠ (2 : Int).toNat →
          SnapshotEffect.warnedSizeMismatch ∈
            (createHardwareBitmapFromRenderNode
              { acquireBufferResult :=
                  some { mGraphicBuffer :=
                           some { width := 2, height := 2, pixelFormat := 1 },
                         mDataSpace := 0 },
                dataSpaceToColorSpace := fun _ => some (ColorSpace.named 3),
                pixelFormatToColorType := fun _ => 0 } 2 2).2)) :=
  ⟨by decide,
   createHardwareBitmap_returns_buffer_dims _ 2 2 (by decide) (by decide)⟩

/-- C4: a snapshot request with non-positive width or height returns null
before any buffer queue, surface or proxy is created. -/
theorem createHardwareBitmap_invalid_dims (env : SnapshotEnv) (w h : Int)
    (hwh : w ≤ 0 ∨ h ≤ 0) :
    (createHardwareBitmapFromRenderNode env w h).1 = none ∧
    SnapshotEffect.createdBufferQueue ∉
      (createHardwareBitmapFromRenderNode env w h).2 ∧
    SnapshotEffect.createdSurface ∉
      (createHardwareBitmapFromRenderNode env w h).2 ∧
    SnapshotEffect.createdProxy ∉
      (createHardwareBitmapFromRenderNode env w h).2 := by
  simp [createHardwareBitmapFromRenderNode, hwh]

/-- Witness for C4 at width 0, height 5. -/
theorem createHardwareBitmap_invalid_dims_witness :
    (createHardwareBitmapFromRenderNode
      { acquireBufferResult := none,
        dataSpaceToColorSpace := fun _ => none,
        pixelFormatToColorType := fun _ => 0 } 0 5).1 = none ∧
    SnapshotEffect.createdBufferQueue ∉
      (createHardwareBitmapFromRenderNode
        { acquireBufferResult := none,
          dataSpaceToColorSpace := fun _ => none,
          pixelFormatToColorType := fun _ => 0 } 0 5).2 ∧
    SnapshotEffect.createdSurface ∉
      (createHardwareBitmapFromRenderNode
        { acquireBufferResult := none,
          dataSpaceToColorSpace := fun _ => none,
          pixelFormatToColorType := fun _ => 0 } 0 5).2 ∧
    SnapshotEffect.createdProxy ∉
      (createHardwareBitmapFromRenderNode
        { acquireBufferResult := none,
          dataSpaceToColorSpace := fun _ => none,
          pixelFormatToColorType := fun _ => 0 } 0 5).2 :=
  createHardwareBitmap_invalid_dims _ 0 5 (by decide)

/-- C10: a non-null snapshot bitmap always carries a colour space; when the
acquired buffer's data space maps to no colour space, sRGB is substituted. -/
theorem createHardwareBitmap_colorspace (env : SnapshotEnv) (w h : Int)
    (b : HwBitmap) (item : BufferItem)
    (hb : (createHardwareBitmapFromRenderNode env w h).1 = some b)
    (hitem : env.acquireBufferResult = some item) :
    b.colorSpace.isSome = true ∧
    (env.dataSpaceToColorSpace item.mDataSpace = none →
      b.colorSpace = some ColorSpace.srgb) := by
  by_cases hwh : w ≤ 0 ∨ h ≤ 0
  · simp [createHardwareBitmapFromRenderNode, hwh] at hb
  · cases hB : item.mGraphicBuffer with
    | none =>
      simp [createHardwareBitmapFromRenderNode, hwh, hitem, hB] at hb
    | some buffer =>
      cases hcs : env.dataSpaceToColorSpace item.mDataSpace with
      | none =>
        simp [createHardwareBitmapFromRenderNode, hwh, hitem, hB, hcs] at hb
        subst hb
        exact ⟨rfl, fun _ => rfl⟩
      | some c =>
        simp [createHardwareBitmapFromRenderNode, hwh, hitem, hB, hcs] at hb
        subst hb
        refine ⟨rfl, fun hnone => ?_⟩
        simp at hnone

/-- Witness for C10 at a concrete environment whose data space maps to no
colour space, so sRGB is substituted. -/
theorem createHardwareBitmap_colorspace_witness :
    Option.isSome
      (HwBitmap.colorSpace
        { width := 1, height := 1, colorType := 0,
          colorSpace := some ColorSpace.srgb }) = true ∧
    (SnapshotEnv.dataSpaceToColorSpace
        { acquireBufferResult :=
            some { mGraphicBuffer :=
                     some { width := 1, height := 1, pixelFormat := 1 },
                   mDataSpace := 0 },
          dataSpaceToColorSpace := fun _ => none,
          pixelFormatToColorType := fun _ => 0 }
        (BufferItem.mDataSpace
          { mGraphicBuffer :=
              some { width := 1, height := 1, pixelFormat := 1 },
            mDataSpace := 0 }) = none →
      HwBitmap.colorSpace
          { width := 1, height := 1, colorType := 0,
            colorSpace := some ColorSpace.srgb } =
        some ColorSpace.srgb) :=
  createHardwareBitmap_colorspace _ 1 1 _ _ rfl rfl

/-- FrameCompleteWrapper state (lines 95-125): whether the global listener
reference is still held. The constructor aborts via LOG_ALWAYS_FATAL_IF unless
the global reference was created, so a live wrapper starts holding it. -/
structure FrameCompleteWrapper where
  mObject : Bool
deriving DecidableEq, Repr

/-- FrameCompleteWrapper::releaseObject: deletes the global reference if still
held and clears mObject. Returns the new state and the number of
DeleteGlobalRef calls performed (0 or 1). -/
def FrameCompleteWrapper.releaseObject (w : FrameCompleteWrapper) :
    FrameCompleteWrapper × Nat :=
  if w.mObject then ({ mObject := false }, 1) else (w, 0)

/-- FrameCompleteWrapper::onFrameComplete: if the reference is still held,
invokes the listener once and then releases the reference; otherwise does
nothing. Returns the new state, the number of listener invocations and the
number of DeleteGlobalRef calls performed. -/
def FrameCompleteWrapper.onFrameComplete (w : FrameCompleteWrapper) :
    FrameCompleteWrapper × Nat × Nat :=
  if w.mObject then
    ((w.releaseObject).1, 1, (w.releaseObject).2)
  else
    (w, 0, 0)

/-- FrameCompleteWrapper destructor: calls releaseObject; returns the number
of DeleteGlobalRef calls performed. -/
def FrameCompleteWrapper.destroy (w : FrameCompleteWrapper) : Nat :=
  (w.releaseObject).2

/-- A sequence of n onFrameComplete calls on a wrapper: final state, total
listener invocations, total DeleteGlobalRef calls. -/
def runOnFrameComplete : Nat → FrameCompleteWrapper →
    FrameCompleteWrapper × Nat × Nat
  | 0, w => (w, 0, 0)
  | n + 1, w =>
    let s1 := w.onFrameComplete
    let rest := runOnFrameComplete n s1.1
    (rest.1, s1.2.1 + rest.2.1, s1.2.2 + rest.2.2)

/-- Whole lifetime of one FrameComplete registration: n onFrameComplete calls
on a freshly constructed wrapper, then destruction. Returns (total listener
invocations, DeleteGlobalRef calls during the onFrameComplete calls,
DeleteGlobalRef calls at destruction). -/
def frameCompleteLifecycle (n : Nat) : Nat × Nat × Nat :=
  let r := runOnFrameComplete n { mObject := true }
  (r.2.1, r.2.2, r.1.destroy)

/-- Helper: once the reference is gone, further onFrameComplete calls are
no-ops with no invocations and no releases. -/
theorem runOnFrameComplete_inactive (m : Nat) :
    runOnFrameComplete m { mObject := false } =
      ({ mObject := false }, 0, 0) := by
  induction m with
  | zero => rfl
  | succ k ih =>
    simp [runOnFrameComplete, FrameCompleteWrapper.onFrameComplete, ih]

/-- Helper: the exact lifecycle counts — no call means the single release
happens at destruction; at least one call means one invocation, one release
during the first call, and none at destruction. -/
theorem frameCompleteLifecycle_eq (n : Nat) :
    frameCompleteLifecycle n = if n = 0 then (0, 0, 1) else (1, 1, 0) := by
  cases n with
  | zero => rfl
  | succ k =>
    simp [frameCompleteLifecycle, runOnFrameComplete,
      FrameCompleteWrapper.onFrameComplete, FrameCompleteWrapper.releaseObject,
      FrameCompleteWrapper.destroy, runOnFrameComplete_inactive k]

/-- JGlobalRefHolder state (lines 376-394): constructed owning one global
reference; copy and assignment are deleted, so the only release path is the
destructor, which unconditionally deletes the reference. -/
structure JGlobalRefHolder where
  mObject : Bool
deriving DecidableEq, Repr

/-- A dispatch through the std::function capturing a JGlobalRefHolder
(setPictureCapturedCallback / setFrameCallback lambdas): invokes the listener
once and performs no release. Returns the state, invocations, releases. -/
def JGlobalRefHolder.onDispatch (h : JGlobalRefHolder) :
    JGlobalRefHolder × Nat × Nat :=
  (h, 1, 0)

/-- JGlobalRefHolder destructor: unconditionally DeleteGlobalRef, once. -/
def JGlobalRefHolder.destroy (_ : JGlobalRefHolder) : Nat := 1

/-- A sequence of n dispatches through a holder-capturing callback. -/
def runHolderDispatch : Nat → JGlobalRefHolder → JGlobalRefHolder × Nat × Nat
  | 0, h => (h, 0, 0)
  | n + 1, h =>
    let s1 := h.onDispatch
    let rest := runHolderDispatch n s1.1
    (rest.1, s1.2.1 + rest.2.1, s1.2.2 + rest.2.2)

/-- Helper: dispatches through a JGlobalRefHolder never release the global
reference; the state is unchanged. -/
theorem runHolderDispatch_eq (n : Nat) (h : JGlobalRefHolder) :
    runHolderDispatch n h = (h, n, 0) := by
  induction n with
  | zero => rfl
  | succ k ih =>
    simp [runHolderDispatch, JGlobalRefHolder.onDispatch, ih]
    omega

/-- A JNIEnv as these registration paths use it: the outcome of
env->GetJavaVM (some vm handle on JNI_OK, none otherwise). -/
structure JNIEnvT where
  getJavaVMResult : Option Nat
deriving DecidableEq, Repr

/-- What a registration call hands to the proxy for the two
JGlobalRefHolder-based callbacks: a cleared registration (nullptr forwarded)
or an installed wrapper together with the number of NewGlobalRef calls made. -/
inductive HolderSetting where
  | cleared
  | installed (holder : JGlobalRefHolder) (newGlobalRefs : Nat)
deriving DecidableEq, Repr

/-- Same for the frame-complete registration. -/
inductive FrameCompleteSetting where
  | cleared
  | installed (wrapper : FrameCompleteWrapper) (newGlobalRefs : Nat)
deriving DecidableEq, Repr

/-- android_view_ThreadedRenderer_setPictureCapturedCallbackJNI
(lines 396-415): null clears the proxy callback; otherwise aborts if
GetJavaVM fails, else wraps the listener in one new global reference held by
a JGlobalRefHolder. Listeners are identified by Nat. -/
def setPictureCapturedCallbackJNI (env : JNIEnvT) (cb : Option Nat) :
    JniResult HolderSetting :=
  match cb with
  | none => JniResult.ok HolderSetting.cleared
  | some _ =>
    match env.getJavaVMResult with
    | none => JniResult.fatal "Unable to get Java VM"
    | some _ =>
      JniResult.ok (HolderSetting.installed { mObject := true } 1)

/-- android_view_ThreadedRenderer_setFrameCallback (lines 417-433): same
shape as the picture-capture registration. -/
def setFrameCallback (env : JNIEnvT) (cb : Option Nat) :
    JniResult HolderSetting :=
  match cb with
  | none => JniResult.ok HolderSetting.cleared
  | some _ =>
    match env.getJavaVMResult with
    | none => JniResult.fatal "Unable to get Java VM"
    | some _ =>
      JniResult.ok (HolderSetting.installed { mObject := true } 1)

/-- android_view_ThreadedRenderer_setFrameCompleteCallback (lines 435-446):
null clears the proxy callback; otherwise constructs a FrameCompleteWrapper,
which makes one new global reference (aborting if that fails, so a live
wrapper holds it). No GetJavaVM check exists on this path. -/
def setFrameCompleteCallback (cb : Option Nat) : FrameCompleteSetting :=
  match cb with
  | none => FrameCompleteSetting.cleared
  | some _ => FrameCompleteSetting.installed { mObject := true } 1

/-- C5: across any number n of onFrameComplete calls followed by destruction,
a FrameComplete registration invokes its listener at most once and releases
its global reference exactly once — during the first invocation when one
occurs, at destruction otherwise — and calls after the reference is released
are no-ops. -/
theorem frameComplete_single_shot (n m : Nat) :
    (frameCompleteLifecycle n).1 ≤ 1 ∧
    (frameCompleteLifecycle n).2.1 + (frameCompleteLifecycle n).2.2 = 1 ∧
    (0 < n → frameCompleteLifecycle n = (1, 1, 0)) ∧
    frameCompleteLifecycle 0 = (0, 0, 1) ∧
    runOnFrameComplete m { mObject := false } =
      ({ mObject := false }, 0, 0) := by
  refine ⟨?_, ?_, ?_, rfl, runOnFrameComplete_inactive m⟩
  · rw [frameCompleteLifecycle_eq]
    cases n <;> simp
  · rw [frameCompleteLifecycle_eq]
    cases n <;> simp
  · intro hn
    rw [frameCompleteLifecycle_eq]
    simp [Nat.pos_iff_ne_zero.mp hn]

/-- Witness for C5 at n = 2 calls and m = 3 further no-op calls. -/
theorem frameComplete_single_shot_witness :
    (frameCompleteLifecycle 2).1 ≤ 1 ∧
    (frameCompleteLifecycle 2).2.1 + (frameCompleteLifecycle 2).2.2 = 1 ∧
    frameCompleteLifecycle 2 = (1, 1, 0) ∧
    frameCompleteLifecycle 0 = (0, 0, 1) ∧
    runOnFrameComplete 3 { mObject := false } =
      ({ mObject := false }, 0, 0) :=
  ⟨(frameComplete_single_shot 2 3).1, (frameComplete_single_shot 2 3).2.1,
   (frameComplete_single_shot 2 3).2.2.1 (by decide),
   (frameComplete_single_shot 2 3).2.2.2.1,
   (frameComplete_single_shot 2 3).2.2.2.2⟩

/-- C7 counterexample: registering a non-null frame-complete callback and
firing it once releases the global reference during the invocation — the
lifecycle counts are one invocation, one release during the calls and zero
releases at destruction — refuting the claim that the reference is released
when the wrapper is destroyed. -/
theorem frameCompleteCallback_release_not_at_destroy :
    setFrameCompleteCallback (some 0) =
      FrameCompleteSetting.installed { mObject := true } 1 ∧
    frameCompleteLifecycle 1 = (1, 1, 0) ∧
    (frameCompleteLifecycle 1).2.2 = 0 := by
  refine ⟨rfl, ?_, ?_⟩ <;> decide

/-- C7 (amended): null clears each registration by forwarding nullptr;
non-null wraps the listener in exactly one new global reference; the picture
capture and frame-drawing holders never release during dispatch and release
exactly once at destruction; the frame-complete wrapper releases exactly once
over its whole lifecycle, at the first invocation or else at destruction. -/
theorem callback_registration_lifecycle (env : JNIEnvT) (l : Nat) (n m : Nat)
    (v : Nat) (henv : env.getJavaVMResult = some v) :
    setPictureCapturedCallbackJNI env none =
      JniResult.ok HolderSetting.cleared ∧
    setFrameCallback env none = JniResult.ok HolderSetting.cleared ∧
    setFrameCompleteCallback none = FrameCompleteSetting.cleared ∧
    setPictureCapturedCallbackJNI env (some l) =
      JniResult.ok (HolderSetting.installed { mObject := true } 1) ∧
    setFrameCallback env (some l) =
      JniResult.ok (HolderSetting.installed { mObject := true } 1) ∧
    setFrameCompleteCallback (some l) =
      FrameCompleteSetting.installed { mObject := true } 1 ∧
    runHolderDispatch n { mObject := true } = ({ mObject := true }, n, 0) ∧
    JGlobalRefHolder.destroy { mObject := true } = 1 ∧
    (frameCompleteLifecycle m).2.1 + (frameCompleteLifecycle m).2.2 = 1 ∧
    (0 < m → frameCompleteLifecycle m = (1, 1, 0)) ∧
    frameCompleteLifecycle 0 = (0, 0, 1) := by
  refine ⟨rfl, rfl, rfl, ?_, ?_, rfl, runHolderDispatch_eq n _, rfl,
    ?_, ?_, rfl⟩
  · simp [setPictureCapturedCallbackJNI, henv]
  · simp [setFrameCallback, henv]
  · rw [frameCompleteLifecycle_eq]
    cases m <;> simp
  · intro hm
    rw [frameCompleteLifecycle_eq]
    simp [Nat.pos_iff_ne_zero.mp hm]

/-- Witness for C7 (amended) at a concrete environment and listener. -/
theorem callback_registration_lifecycle_witness :
    setPictureCapturedCallbackJNI { getJavaVMResult := some 0 } none =
      JniResult.ok HolderSetting.cleared ∧
    setFrameCallback { getJavaVMResult := some 0 } none =
      JniResult.ok HolderSetting.cleared ∧
    setFrameCompleteCallback none = FrameCompleteSetting.cleared ∧
    setPictureCapturedCallbackJNI { getJavaVMResult := some 0 } (some 7) =
      JniResult.ok (HolderSetting.installed { mObject := true } 1) ∧
    setFrameCallback { getJavaVMResult := some 0 } (some 7) =
      JniResult.ok (HolderSetting.installed { mObject := true } 1) ∧
    setFrameCompleteCallback (some 7) =
      FrameCompleteSetting.installed { mObject := true } 1 ∧
    runHolderDispatch 4 { mObject := true } = ({ mObject := true }, 4, 0) ∧
    JGlobalRefHolder.destroy { mObject := true } = 1 ∧
    (frameCompleteLifecycle 2).2.1 + (frameCompleteLifecycle 2).2.2 = 1 ∧
    frameCompleteLifecycle 2 = (1, 1, 0) ∧
    frameCompleteLifecycle 0 = (0, 0, 1) := by
  have h := callback_registration_lifecycle { getJavaVMResult := some 0 }
    7 4 2 0 rfl
  exact ⟨h.1, h.2.1, h.2.2.1, h.2.2.2.1, h.2.2.2.2.1, h.2.2.2.2.2.1,
    h.2.2.2.2.2.2.1, h.2.2.2.2.2.2.2.1, h.2.2.2.2.2.2.2.2.1,
    h.2.2.2.2.2.2.2.2.2.1 (by decide), h.2.2.2.2.2.2.2.2.2.2⟩

/-- A native FrameMetricsObserverProxy as allocated by
nAddFrameMetricsObserver: its native address (the returned jlong handle) and
the Java observer it wraps (identified by Nat). -/
structure NativeObserver where
  ptr : Nat
  wrapped : Nat
deriving DecidableEq, Repr

/-- Modelled from the spec: RenderProxy's registered observer collection has
"set semantics (no duplicate registration of the same observer)" —
RenderProxy::addFrameMetricsObserver and removeFrameMetricsObserver are
declared in renderthread/RenderProxy.h, outside the given sources. Inserting
an already-present observer leaves the collection unchanged. -/
def specInsert (s : List NativeObserver) (o : NativeObserver) :
    List NativeObserver :=
  if o ∈ s then s else s ++ [o]

/-- The registry state the JNI layer drives: the registered native observers
plus the allocator state producing fresh native addresses (operator new never
returns an address equal to a live object's). -/
structure FmoState where
  registered : List NativeObserver
  nextPtr : Nat
deriving DecidableEq, Repr

/-- android_view_ThreadedRenderer_addFrameMetricsObserver (lines 581-595):
aborts if GetJavaVM fails; otherwise allocates a fresh
FrameMetricsObserverProxy wrapping the Java observer, registers it with the
proxy, and returns its address as the handle. -/
def addFrameMetricsObserver (env : JNIEnvT) (s : FmoState) (fso : Nat) :
    JniResult (FmoState × Nat) :=
  match env.getJavaVMResult with
  | none => JniResult.fatal "Unable to get Java VM"
  | some _ =>
    let observer : NativeObserver := { ptr := s.nextPtr, wrapped := fso }
    JniResult.ok
      ({ registered := specInsert s.registered observer,
         nextPtr := s.nextPtr + 1 },
       observer.ptr)

/-- android_view_ThreadedRenderer_removeFrameMetricsObserver (lines 597-604):
casts the handle back to the native observer and asks the proxy to remove it;
removal of an observer that is not registered changes nothing (modelled from
the spec: removal from the observer set is "a no-op, not an error"). -/
def removeFrameMetricsObserver (s : FmoState) (observerPtr : Nat) : FmoState :=
  { s with registered := s.registered.filter (fun o => o.ptr != observerPtr) }

/-- C6 counterexample: registering the same Java observer (7) twice through
nAddFrameMetricsObserver allocates two distinct native observers and leaves
the registered set with two entries wrapping observer 7, not one, and returns
two distinct handles. -/
theorem addFrameMetricsObserver_twice_cx :
    addFrameMetricsObserver { getJavaVMResult := some 0 }
        { registered := [], nextPtr := 0 } 7 =
      JniResult.ok ({ registered := [{ ptr := 0, wrapped := 7 }],
                      nextPtr := 1 }, 0) ∧
    addFrameMetricsObserver { getJavaVMResult := some 0 }
        { registered := [{ ptr := 0, wrapped := 7 }], nextPtr := 1 } 7 =
      JniResult.ok ({ registered := [{ ptr := 0, wrapped := 7 },
                                     { ptr := 1, wrapped := 7 }],
                      nextPtr := 2 }, 1) ∧
    List.countP (fun (o : NativeObserver) => o.wrapped == 7)
      [{ ptr := 0, wrapped := 7 }, { ptr := 1, wrapped := 7 }] = 2 ∧
    (0 : Nat) ≠ 1 := by
  refine ⟨rfl, rfl, by decide, by decide⟩

/-- C6 (amended): every nAddFrameMetricsObserver call allocates a fresh
native observer wrapping the given Java observer and inserts it, so two
registrations of the same Java observer leave two distinct registered entries
and return distinct handles; removing a handle that is not registered is a
no-op. The freshness hypothesis states that live registered observers have
addresses below the allocator frontier. -/
theorem addFrameMetricsObserver_fresh (env : JNIEnvT) (s : FmoState)
    (fso : Nat) (p : Nat) (v : Nat)
    (henv : env.getJavaVMResult = some v)
    (hfresh : ∀ o ∈ s.registered, o.ptr < s.nextPtr)
    (hp : ∀ o ∈ s.registered, o.ptr ≠ p) :
    ∃ s1 r1 s2 r2,
      addFrameMetricsObserver env s fso = JniResult.ok (s1, r1) ∧
      addFrameMetricsObserver env s1 fso = JniResult.ok (s2, r2) ∧
      s2.registered = s.registered ++
        [{ ptr := s.nextPtr, wrapped := fso },
         { ptr := s.nextPtr + 1, wrapped := fso }] ∧
      r1 ≠ r2 ∧
      removeFrameMetricsObserver s p = s := by
  have h1 : ({ ptr := s.nextPtr, wrapped := fso } : NativeObserver) ∉
      s.registered := by
    intro hmem
    exact absurd rfl (Nat.ne_of_lt (hfresh _ hmem))
  have h2 : ({ ptr := s.nextPtr + 1, wrapped := fso } : NativeObserver) ∉
      s.registered ++ [{ ptr := s.nextPtr, wrapped := fso }] := by
    intro hmem
    rcases List.mem_append.mp hmem with hmem | hmem
    · exact absurd rfl (Nat.ne_of_lt (Nat.lt_succ_of_lt (hfresh _ hmem)))
    · rcases List.mem_singleton.mp hmem with h
      have : s.nextPtr + 1 = s.nextPtr := congrArg NativeObserver.ptr h
      omega
  refine ⟨{ registered :=
              specInsert s.registered { ptr := s.nextPtr, wrapped := fso },
            nextPtr := s.nextPtr + 1 },
          s.nextPtr,
          { registered :=
              specInsert
                (specInsert s.registered { ptr := s.nextPtr, wrapped := fso })
                { ptr := s.nextPtr + 1, wrapped := fso },
            nextPtr := s.nextPtr + 2 },
          s.nextPtr + 1, ?_, ?_, ?_, ?_, ?_⟩
  · simp [addFrameMetricsObserver, henv]
  · simp [addFrameMetricsObserver, henv]
  · show specInsert (specInsert s.registered _) _ = _
    have e1 : specInsert s.registered { ptr := s.nextPtr, wrapped := fso } =
        s.registered ++ [{ ptr := s.nextPtr, wrapped := fso }] := by
      rw [specInsert, if_neg h1]
    rw [e1, specInsert, if_neg h2, List.append_assoc]
    rfl
  · omega
  · have hfilter : ∀ l : List NativeObserver, (∀ o ∈ l, o.ptr ≠ p) →
        l.filter (fun o => o.ptr != p) = l := by
      intro l
      induction l with
      | nil => intro _; rfl
      | cons a t ih =>
        intro hl
        have ha := hl a (List.mem_cons_self a t)
        have ht := fun o ho => hl o (List.mem_cons_of_mem a ho)
        simp [List.filter_cons, ha, ih ht]
    show ({ s with
            registered := s.registered.filter (fun o => o.ptr != p) } :
          FmoState) = s
    rw [hfilter s.registered hp]

/-- Witness for C6 (amended) at a concrete registry holding one observer. -/
theorem addFrameMetricsObserver_fresh_witness :
    ∃ s1 r1 s2 r2,
      addFrameMetricsObserver { getJavaVMResult := some 0 }
          { registered := [{ ptr := 0, wrapped := 3 }], nextPtr := 1 } 7 =
        JniResult.ok (s1, r1) ∧
      addFrameMetricsObserver { getJavaVMResult := some 0 } s1 7 =
        JniResult.ok (s2, r2) ∧
      s2.registered = [{ ptr := 0, wrapped := 3 }] ++
        [{ ptr := 1, wrapped := 7 }, { ptr := 2, wrapped := 7 }] ∧
      r1 ≠ r2 ∧
      removeFrameMetricsObserver
          { registered := [{ ptr := 0, wrapped := 3 }], nextPtr := 1 } 5 =
        { registered := [{ ptr := 0, wrapped := 3 }], nextPtr := 1 } :=
  addFrameMetricsObserver_fresh { getJavaVMResult := some 0 }
    { registered := [{ ptr := 0, wrapped := 3 }], nextPtr := 1 } 7 5 0
    rfl (by decide) (by decide)

/-- A JavaVM as getenv uses it: the outcome of vm->GetEnv (some JNIEnv handle
on JNI_OK, none otherwise). -/
structure JavaVM_T where
  getEnvResult : Option Nat
deriving DecidableEq, Repr

/-- getenv (lines 73-79): aborts fatally when GetEnv fails; otherwise returns
the JNIEnv handle. -/
def getenv (vm : JavaVM_T) : JniResult Nat :=
  match vm.getEnvResult with
  | none => JniResult.fatal "Failed to get JNIEnv for JavaVM"
  | some env => JniResult.ok env

/-- attachRenderThreadToJvm (lines 697-706): aborts fatally when no JavaVM
was stored at registration time; otherwise attaches the worker thread as a
daemon. -/
def attachRenderThreadToJvm (mJvm : Option JavaVM_T) : JniResult Unit :=
  match mJvm with
  | none => JniResult.fatal "No jvm but we set the hook??"
  | some _ => JniResult.ok ()

/-- C8: the environment-handle failure branches all abort fatally instead of
returning a value — getenv when GetEnv fails, attachRenderThreadToJvm when no
JVM was stored (and not otherwise), and the observer / callback registration
paths when GetJavaVM fails. -/
theorem fatal_on_missing_env_handles (vm : JavaVM_T) (env : JNIEnvT)
    (s : FmoState) (fso : Nat) (l : Nat) (jvm : JavaVM_T)
    (h1 : vm.getEnvResult = none) (h2 : env.getJavaVMResult = none) :
    (getenv vm).isFatal = true ∧
    (attachRenderThreadToJvm none).isFatal = true ∧
    (attachRenderThreadToJvm (some jvm)).isFatal = false ∧
    (addFrameMetricsObserver env s fso).isFatal = true ∧
    (setPictureCapturedCallbackJNI env (some l)).isFatal = true ∧
    (setFrameCallback env (some l)).isFatal = true := by
  refine ⟨?_, rfl, rfl, ?_, ?_, ?_⟩
  · simp [getenv, h1, JniResult.isFatal]
  · simp [addFrameMetricsObserver, h2, JniResult.isFatal]
  · simp [setPictureCapturedCallbackJNI, h2, JniResult.isFatal]
  · simp [setFrameCallback, h2, JniResult.isFatal]

/-- Witness for C8 at a concrete failing VM and environment. -/
theorem fatal_on_missing_env_handles_witness :
    (getenv { getEnvResult := none }).isFatal = true ∧
    (attachRenderThreadToJvm none).isFatal = true ∧
    (attachRenderThreadToJvm
      (some { getEnvResult := some 0 })).isFatal = false ∧
    (addFrameMetricsObserver { getJavaVMResult := none }
      { registered := [], nextPtr := 0 } 7).isFatal = true ∧
    (setPictureCapturedCallbackJNI { getJavaVMResult := none }
      (some 7)).isFatal = true ∧
    (setFrameCallback { getJavaVMResult := none }
      (some 7)).isFatal = true :=
  fatal_on_missing_env_handles { getEnvResult := none }
    { getJavaVMResult := none } { registered := [], nextPtr := 0 } 7 7
    { getEnvResult := some 0 } rfl rfl

/-- One GetStringUTFChars / ReleaseStringUTFChars call, with the UTF buffer
identified by the jstring it was obtained from: release s buf is
ReleaseStringUTFChars on jstring s of the buffer obtained from jstring buf. -/
inductive UtfEvent where
  | get (s : Nat)
  | release (s : Nat) (buf : Nat)
deriving DecidableEq, Repr

/-- android_view_ThreadedRenderer_overrideProperty (lines 315-322) as the
sequence of string-buffer calls it performs: it obtains buffers from name and
value, then releases both — but line 321 passes the jstring name together
with the buffer obtained from value. -/
def overridePropertyEvents (name value : Nat) : List UtfEvent :=
  [UtfEvent.get name, UtfEvent.get value,
   UtfEvent.release name name, UtfEvent.release name value]

/-- Whether every release in a call trace pairs the buffer with the jstring
it was obtained from, as the JNI contract requires. -/
def releasesCorrectlyPaired (evs : List UtfEvent) : Bool :=
  evs.all fun e =>
    match e with
    | UtfEvent.release s buf => s == buf
    | _ => true

/-- C9: with name string 0 and value string 1, nOverrideProperty releases the
buffer obtained from value exactly once, but pairs that release with the name
jstring — no release against the value jstring ever happens, so the release
pairing the claim (and the JNI contract) requires is violated. -/
theorem overrideProperty_release_pairing_bug :
    releasesCorrectlyPaired (overridePropertyEvents 0 1) = false ∧
    UtfEvent.release 0 1 ∈ overridePropertyEvents 0 1 ∧
    List.countP
      (fun e => match e with
        | UtfEvent.release _ buf => buf == 1
        | _ => false)
      (overridePropertyEvents 0 1) = 1 ∧
    List.countP
      (fun e => match e with
        | UtfEvent.release s _ => s == 1
        | _ => false)
      (overridePropertyEvents 0 1) = 0 := by
  refine ⟨rfl, by decide, rfl, rfl⟩

end ThreadedRenderer
